import Mathlib

/-!
Verification development for `discord-itunes` (src/index.js).

The program is a poll loop that mirrors the local iTunes / Music player
state to Discord Rich Presence.  We shallowly embed its module-level
mutable state (`previousPlaying`, `previousStreaming`, `loggedIn`,
`requestedClientId`, `activatedClientId`, `currentStationName`,
`currentStationId`, `knownStations`) as an explicit `AppState` record and
each function of the source as a state-passing Lean function.

Conventions of the embedding:
* JavaScript strings are Lean `String`s; a JS string is truthy iff it is
  non-empty.  Fields that may be `undefined` in JS are `Option String`.
* JS numbers appearing in the claims (`Number(new Date())`, player
  position) are modelled as `Int`; the only arithmetic is
  `now - start * 1000`.
* Asynchronous environment outcomes (results of HTTP fetches, of the
  `setActivity` remote call, of `connect`) are passed in explicitly as
  oracle inputs of each tick (`TickEnv`).  Ticks are serialized: each
  asynchronous continuation is modelled as running to completion within
  the tick that started it.
* A thrown / rejected JS error is the `thrown` field of `StepOut`.
  Mutations of the global state performed before a throw persist, exactly
  as JS global mutation does.  An error inside a `.then` continuation
  that nobody awaits does not propagate: it is recorded as an
  `Event.unhandled` and the tick goes on.
-/

namespace DiscordItunes

/-- Constant from src/index.js line 357: client id of the "music" profile. -/
def iTunesMusicClientId : String := "695005084505079848"

/-- Constant from src/index.js line 358: client id of the "radio" profile. -/
def iTunesRadioClientId : String := "702431764781465650"

/-- The mojibake character sequence stored in the source file before a track
name (src/index.js line 101; the file is double-encoded UTF-8). -/
def emojiMusic : String := "ðŸŽµ"

/-- Mojibake sequence before the track total time (src/index.js line 101). -/
def emojiClock : String := "ðŸ•˜"

/-- Mojibake sequence before the artist name (src/index.js line 102). -/
def emojiPerson : String := "ðŸ‘¤"

/-- Mojibake sequence before the album name (src/index.js line 103). -/
def emojiDisc : String := "ðŸ’¿"

/-- Mojibake sequence before the station name (src/index.js line 124). -/
def emojiRadio : String := "ðŸ“»"

/-- The module-level mutable variables of src/index.js lines 363-374,
plus the (constant after startup) package version used at line 161. -/
structure AppState where
  previousPlaying : String
  previousStreaming : String
  loggedIn : Bool
  requestedClientId : String
  activatedClientId : String
  currentStationName : String
  currentStationId : String
  /-- Field `knownStations`: `none` models the JS `undefined` it keeps when the
  startup parse failed; `some m` models the parsed name → icon-key map. -/
  knownStations : Option (List (String × String))
  packageVersion : String
  deriving DecidableEq, Repr

/-- One hex digit, lowercase, as emitted by `JSON.stringify` in `\u00XX`
escapes of control characters. -/
def hexDigit (n : Nat) : Char :=
  if n < 10 then Char.ofNat (48 + n) else Char.ofNat (87 + n)

/-- Two lowercase hex digits of a byte value. -/
def hexByte (n : Nat) : String :=
  String.mk [hexDigit (n / 16), hexDigit (n % 16)]

/-- How `JSON.stringify` escapes one character inside a string value. -/
def jsonEscapeChar (c : Char) : String :=
  if c = '"' then "\\\""
  else if c = '\\' then "\\\\"
  else if c = '\n' then "\\n"
  else if c = '\r' then "\\r"
  else if c = '\t' then "\\t"
  else if c = '\x08' then "\\b"
  else if c = '\x0c' then "\\f"
  else if c.toNat < 32 then "\\u00" ++ hexByte c.toNat
  else String.mk [c]

/-- Embeds `JSON.stringify` escaping of a string value, without the surrounding quotes. -/
def jsonEscape (s : String) : String :=
  String.join (s.data.map jsonEscapeChar)

/-- Embeds `JSON.stringify({trackName: t, artistName: a, albumName: b})`, the
fingerprint built at src/index.js lines 208 and 280 (both sites use the
same three keys in the same order). -/
def stringifyFacts (t a b : String) : String :=
  "\x7b\"trackName\":\"" ++ jsonEscape t
    ++ "\",\"artistName\":\"" ++ jsonEscape a
    ++ "\",\"albumName\":\"" ++ jsonEscape b ++ "\"\x7d"

/-- The payload handed to `discordClient.setActivity` (src/index.js
lines 154-161). -/
structure PresencePayload where
  details : String
  state : String
  startTimestamp : Int
  largeImageKey : String
  largeImageText : String
  smallImageKey : String
  smallImageText : String
  deriving DecidableEq, Repr

/-- Which payload builder produced a send: `sendPlayingToDiscord`
(local playback) or `sendListeningToDiscord` (station streaming). -/
inductive SendMode where
  | localMode
  | stationMode
  deriving DecidableEq, Repr

/-- Observable actions of a tick, in program order.  The two `reset…Lane`
events mark exactly the source lines that assign `''` to
`previousPlaying` (lines 289 and 304) resp. `previousStreaming`
(line 284). -/
inductive Event where
  | connectAttempt (clientId : String)
  | destroyClient
  | createClient
  | resetPlayingLane
  | resetStreamingLane
  | sendActivity (mode : SendMode) (payload : PresencePayload) (ok : Bool)
  | unhandled (message : String)
  deriving DecidableEq, Repr

/-- Result of running one piece of the program: the new global state, the
events it performed, and the JS error it threw to its awaiting caller
(if any).  State mutations made before the throw are kept. -/
structure StepOut where
  state : AppState
  events : List Event
  thrown : Option String
  deriving DecidableEq, Repr

/-- An error of an un-awaited continuation surfaces only as an unhandled
rejection. -/
def thrownToUnhandled : Option String → List Event
  | some e => [Event.unhandled e]
  | none => []

/-- Embeds `getStationKeyName` (src/index.js lines 222-224):
`(stationName in knownStations) ? knownStations[stationName] : stationName`.
When `knownStations` is still `undefined` (startup parse failed), the JS
`in` operator itself throws a `TypeError`. -/
def getStationKeyName (knownStations : Option (List (String × String)))
    (stationName : String) : Except String String :=
  match knownStations with
  | none => Except.error "TypeError: cannot use in operator on undefined"
  | some m =>
    match m.lookup stationName with
    | some key => Except.ok key
    | none => Except.ok stationName

/-- Embeds `discordSend` (src/index.js lines 147-165) up to the remote call:
picks the large icon key — `'itunes'` unless a station name is set, in
which case `getStationKeyName` of that station — and builds the payload.
The remote `setActivity(...)` call's own failure is caught and logged at
line 162, so it never throws; only a `getStationKeyName` throw escapes. -/
def discordSend (s : AppState) (details state imageText : String)
    (startTimestamp : Int) : Except String PresencePayload :=
  let logoResult : Except String String :=
    if s.currentStationName ≠ "" then
      getStationKeyName s.knownStations s.currentStationName
    else
      Except.ok "itunes"
  match logoResult with
  | Except.error e => Except.error e
  | Except.ok stationLogo =>
    Except.ok
      { details := details
        state := state
        startTimestamp := startTimestamp
        largeImageKey := stationLogo
        largeImageText := imageText
        smallImageKey := "github"
        smallImageText := "nimayneb/discord-itunes (" ++ s.packageVersion ++ ")" }

/-- Embeds `sendPlayingToDiscord` (src/index.js lines 91-106).  `start` is the
player position and `timeOfTrack` the total time string queried from the
player; `now` is `Number(new Date())` sampled at line 96. -/
def sendPlayingToDiscord (s : AppState) (trackName artistName albumName : String)
    (start : Int) (timeOfTrack : String) (now : Int) : Except String PresencePayload :=
  let startTimestamp := now - start * 1000
  discordSend s
    (emojiMusic ++ " " ++ trackName ++ " " ++ emojiClock ++ " " ++ timeOfTrack)
    (emojiPerson ++ " " ++ artistName)
    (emojiDisc ++ " " ++ albumName)
    startTimestamp

/-- Embeds `sendListeningToDiscord` (src/index.js lines 122-135).  `now` is
`Number(new Date())` sampled at line 123; it is the `startTimestamp`. -/
def sendListeningToDiscord (s : AppState) (trackName artistName albumName : String)
    (now : Int) : Except String PresencePayload :=
  let imageText :=
    if albumName ≠ "" then emojiDisc ++ " " ++ albumName
    else emojiRadio ++ " " ++ s.currentStationName
  discordSend s (emojiMusic ++ " " ++ trackName) (emojiPerson ++ " " ++ artistName)
    imageText now

/-- The single object of the now-playing JSON array (src/index.js comment
lines 176-191): the four fields the code reads; `none` models a JS
`undefined` field. -/
structure TrackData where
  songName : Option String
  artistName : Option String
  albumName : Option String
  streamTitle : Option String
  deriving DecidableEq, Repr

/-- The JS idiom `x ? x : fallback` on a possibly-undefined string: an absent or
empty string is falsy. -/
def jsOr (o : Option String) (fallback : String) : String :=
  match o with
  | none => fallback
  | some s => if s = "" then fallback else s

/-- Scan of JS `String.prototype.split` with a non-empty separator: cut
whenever the remaining input starts with the separator.  The fuel
argument (instantiated with the input length plus one, always enough
since every step consumes at least one character) keeps the recursion
structural. -/
def jsSplitAux (sep : List Char) : Nat → List Char → List Char → List (List Char)
  | 0, rest, acc => [acc.reverse ++ rest]
  | Nat.succ n, rest, acc =>
    match rest with
    | [] => [acc.reverse]
    | c :: cs =>
      if sep.isPrefixOf (c :: cs) then
        acc.reverse :: jsSplitAux sep n (List.drop sep.length (c :: cs)) []
      else
        jsSplitAux sep n cs (c :: acc)

/-- JS `s.split(sep)` for a non-empty separator (the only way the source
uses it). -/
def jsSplit (sep : String) (s : String) : List String :=
  (jsSplitAux sep.data (s.data.length + 1) s.data []).map String.mk

/-- The JS call `streamTitle.split(' - ', 2)`: full split on the separator,
truncated to the first two segments (the JS limit argument truncates the
full split). -/
def jsSplit2 (s : String) : List String :=
  (jsSplit " - " s).take 2

/-- Embeds line 205: `trackData.artistName ? trackData.artistName :
(streamTitle[0] ? streamTitle[0] : 'N/A')`. -/
def deriveArtistName (td : TrackData) (streamTitle : List String) : String :=
  jsOr td.artistName (jsOr (streamTitle.get? 0) "N/A")

/-- Embeds line 206: `trackData.songName ? trackData.songName :
(streamTitle[1] ? streamTitle[1] : 'N/A')`. -/
def deriveTrackName (td : TrackData) (streamTitle : List String) : String :=
  jsOr td.songName (jsOr (streamTitle.get? 1) "N/A")

/-- Embeds line 207: `trackData.albumName ? trackData.albumName : ''`. -/
def deriveAlbumName (td : TrackData) : String :=
  jsOr td.albumName ""

/-- Outcome of the now-playing fetch started at src/index.js line 201.
`fetchFail` models a rejected `fetchUrl` (non-200 status or network
error): the `.then` continuation never runs.  `body td` models a 200
response whose JSON parses to a one-element array around `td`. -/
inductive NowPlayingResponse where
  | fetchFail
  | body (td : TrackData)
  deriving DecidableEq, Repr

/-- Embeds the `.then` continuation of `fetchTrackData` (src/index.js lines
201-214).  `trackData.streamTitle.split(' - ', 2)` is applied
unconditionally, so a missing `streamTitle` throws a `TypeError` before
anything is compared or sent.  On a detected change the fingerprint
`previousStreaming` is assigned *before* `sendListeningToDiscord` is
called (lines 211-212), and that call is not awaited, so a throw inside
it (only possible from `getStationKeyName`) becomes an unhandled
rejection while the fingerprint stays committed. -/
def fetchTrackDataHandler (s : AppState) (td : TrackData) (now : Int)
    (sendOk : Bool) : StepOut :=
  match td.streamTitle with
  | none => { state := s, events := [], thrown := some "TypeError: cannot read split of undefined" }
  | some st =>
    let streamTitle := jsSplit2 st
    let artistName := deriveArtistName td streamTitle
    let trackName := deriveTrackName td streamTitle
    let albumName := deriveAlbumName td
    let current := stringifyFacts trackName artistName albumName
    if current ≠ s.previousStreaming then
      let s1 := { s with previousStreaming := current }
      match sendListeningToDiscord s1 trackName artistName albumName now with
      | Except.error e =>
        { state := s1, events := [Event.unhandled e], thrown := none }
      | Except.ok p =>
        { state := s1, events := [Event.sendActivity SendMode.stationMode p sendOk],
          thrown := none }
    else
      { state := s, events := [], thrown := none }

/-- Embeds `fetchTrackData` (src/index.js lines 198-215).  The fetch chain is
fire-and-forget (`fetchUrl(...).then(...)` with no `await` and no
`.catch`), so a rejected fetch has no observable effect and a `thrown`
of the continuation is what an outer caller can never see; we keep it in
`thrown` here and every caller converts it to `Event.unhandled`. -/
def fetchTrackData (s : AppState) (resp : NowPlayingResponse) (now : Int)
    (sendOk : Bool) : StepOut :=
  match resp with
  | NowPlayingResponse.fetchFail =>
    { state := s, events := [Event.unhandled "FetchError"], thrown := none }
  | NowPlayingResponse.body td => fetchTrackDataHandler s td now sendOk

/-- Outcome of the station-page fetch and of the regex match at
src/index.js lines 239-244, supplied as an oracle.  `noMatch` models a
page where `match` returns `null`, so `matches[1]` throws inside the
un-awaited continuation; `matched id` models a successful capture of the
digit group. -/
inductive StationPageResult where
  | fetchFail
  | noMatch
  | matched (stationId : String)
  deriving DecidableEq, Repr

/-- Embeds `fetchStation` (src/index.js lines 235-261).  For a new station name
the icon key is looked up synchronously to build the URL, so a
`getStationKeyName` throw (undefined `knownStations`) rejects
`fetchStation` itself and propagates to the awaiting caller.  The page
fetch continuation is un-awaited, so its errors are unhandled; inside it
a successful, non-empty id capture commits `currentStationId`,
`currentStationName` and requests the radio profile, then refreshes the
track data only when the radio profile is already the active one. -/
def fetchStation (s : AppState) (stationName : String)
    (page : StationPageResult) (np : NowPlayingResponse) (now : Int)
    (sendOk : Bool) : StepOut :=
  if s.currentStationName ≠ stationName then
    match getStationKeyName s.knownStations stationName with
    | Except.error e => { state := s, events := [], thrown := some e }
    | Except.ok _ =>
      match page with
      | StationPageResult.fetchFail =>
        { state := s, events := [Event.unhandled "FetchError"], thrown := none }
      | StationPageResult.noMatch =>
        { state := s, events := [Event.unhandled "TypeError: matches is null"],
          thrown := none }
      | StationPageResult.matched stationId =>
        if stationId ≠ "" then
          let s1 := { s with currentStationId := stationId,
                             currentStationName := stationName,
                             requestedClientId := iTunesRadioClientId }
          if s1.activatedClientId = iTunesRadioClientId then
            let o := fetchTrackData s1 np now sendOk
            { state := o.state, events := o.events ++ thrownToUnhandled o.thrown,
              thrown := none }
          else
            { state := s1, events := [], thrown := none }
        else
          { state := s, events := [], thrown := none }
  else if s.currentStationId ≠ "" then
    let o := fetchTrackData s np now sendOk
    { state := o.state, events := o.events ++ thrownToUnhandled o.thrown,
      thrown := none }
  else
    { state := s, events := [], thrown := none }

/-- The values a tick observes from the player bridge, all as resolved
strings (the bridge failure mode itself is modelled separately by
`runAppleScript`), plus the wall clock `Number(new Date())` of the tick. -/
structure Obs where
  playerState : String
  trackName : String
  artistName : String
  albumName : String
  playerPosition : Int
  timeOfTrack : String
  now : Int
  deriving DecidableEq, Repr

/-- Oracle outcomes of the asynchronous collaborators during one tick. -/
structure TickEnv where
  sendOk : Bool
  connectOk : Bool
  page : StationPageResult
  nowPlaying : NowPlayingResponse
  deriving DecidableEq, Repr

/-- Embeds `checkCurrentApplicationState` (src/index.js lines 276-294).
Branch 1 (complete facts that differ from the playing-lane fingerprint,
line 282): request the music profile, assign `''` to the streaming lane,
commit the observed fingerprint, then await the local send — all state
writes happen before the send, so a send failure or throw leaves them in
place.  Branch 2 (name present, artist and album empty, line 288):
assign `''` to the playing lane, then await `fetchStation`.
`loggedIn = true` (line 293) runs only if nothing threw. -/
def checkCurrentApplicationState (s : AppState) (obs : Obs) (env : TickEnv) :
    StepOut :=
  let current := stringifyFacts obs.trackName obs.artistName obs.albumName
  if obs.trackName ≠ "" ∧ obs.artistName ≠ "" ∧ obs.albumName ≠ ""
      ∧ current ≠ s.previousPlaying then
    let s1 := { s with requestedClientId := iTunesMusicClientId,
                       previousStreaming := "",
                       previousPlaying := current }
    match sendPlayingToDiscord s1 obs.trackName obs.artistName obs.albumName
        obs.playerPosition obs.timeOfTrack obs.now with
    | Except.error e =>
      { state := s1, events := [Event.resetStreamingLane], thrown := some e }
    | Except.ok p =>
      { state := { s1 with loggedIn := true },
        events := [Event.resetStreamingLane,
                   Event.sendActivity SendMode.localMode p env.sendOk],
        thrown := none }
  else if obs.trackName ≠ "" ∧ obs.artistName = "" ∧ obs.albumName = "" then
    let s1 := { s with previousPlaying := "" }
    let o := fetchStation s1 obs.trackName env.page env.nowPlaying obs.now env.sendOk
    match o.thrown with
    | some e =>
      { state := o.state, events := Event.resetPlayingLane :: o.events,
        thrown := some e }
    | none =>
      { state := { o.state with loggedIn := true },
        events := Event.resetPlayingLane :: o.events, thrown := none }
  else
    { state := { s with loggedIn := true }, events := [], thrown := none }

/-- Embeds `closeConnection` (src/index.js lines 299-305): destroy the session
object, construct a replacement, clear the connected flag and the
playing-lane fingerprint.  The streaming-lane fingerprint is not
touched. -/
def closeConnection (s : AppState) : AppState × List Event :=
  ({ s with loggedIn := false, previousPlaying := "" },
   [Event.destroyClient, Event.createClient, Event.resetPlayingLane])

/-- Embeds `setActivity` (src/index.js lines 315-349), one poll tick.  When not
connected it fires `connect` (failures only logged); if the oracle says
the `connected` signal arrives, the handler installed at line 54 runs
`checkCurrentApplicationState` (its rejection is unhandled).  When the
requested profile differs from the active one it switches: commit the
requested profile, clear the station fields, teardown-and-recreate.
Otherwise it awaits `checkCurrentApplicationState`, whose throw
propagates out of the tick (unhandled at the interval).  When the player
state is anything but `'playing'` and we are connected, it tears down. -/
def setActivityStep (s : AppState) (obs : Obs) (env : TickEnv) : StepOut :=
  if obs.playerState = "playing" then
    if s.loggedIn = false then
      if env.connectOk then
        let o := checkCurrentApplicationState s obs env
        { state := o.state,
          events := Event.connectAttempt s.activatedClientId
                      :: (o.events ++ thrownToUnhandled o.thrown),
          thrown := none }
      else
        { state := s, events := [Event.connectAttempt s.activatedClientId],
          thrown := none }
    else if s.requestedClientId ≠ s.activatedClientId then
      let s1 := { s with activatedClientId := s.requestedClientId,
                         currentStationId := "",
                         currentStationName := "" }
      let (s2, ev) := closeConnection s1
      { state := s2, events := ev, thrown := none }
    else
      checkCurrentApplicationState s obs env
  else
    if s.loggedIn then
      let (s2, ev) := closeConnection s
      { state := s2, events := ev, thrown := none }
    else
      { state := s, events := [], thrown := none }

/-- What the scripting bridge reports to the `execString` callback
(src/index.js line 13). -/
inductive BridgeOutcome where
  | err (e : String)
  | ok (value : String)
  deriving DecidableEq, Repr

/-- Settled state of a JS promise. -/
inductive PromiseResult (α : Type) where
  | resolved (a : α)
  | rejected (e : String)
  deriving DecidableEq, Repr

/-- Embeds `runAppleScript` (src/index.js lines 10-24).  The callback calls
`reject(error)` when the bridge reports an error (the following
`resolve(returns)` is then a no-op, since a promise settles once), so
the returned promise rejects.  The surrounding `try/catch` cannot
intercept this: a throw inside a `Promise` executor is converted into a
rejection by the `Promise` constructor itself, and the callback error is
asynchronous anyway, so the `catch (error) { console.error(error);
return null; }` branch is dead code. -/
def runAppleScript (o : BridgeOutcome) : PromiseResult String :=
  match o with
  | BridgeOutcome.err e => PromiseResult.rejected e
  | BridgeOutcome.ok v => PromiseResult.resolved v

/-- Outcome of the startup gist fetch (src/index.js line 385): `fetchFail`
models a rejected `fetchUrl` (the `.then` with the whole poll-loop
bootstrap inside it then never runs — there is no `.catch`); `body p`
models a 200 response, with `p` the result of `JSON.parse` on it
(`none` = the parse threw, caught at line 391). -/
inductive GistFetch where
  | fetchFail
  | body (parsed : Option (List (String × String)))
  deriving DecidableEq, Repr

/-- What the startup block (src/index.js lines 382-406) reaches. -/
inductive StartupOutcome where
  | loopStarted (knownStations : Option (List (String × String)))
  | notStarted
  deriving DecidableEq, Repr

/-- The startup block after the version query succeeded: fetch the
station asset gist; on fetch rejection nothing else runs (the
`setInterval` bootstrap lives inside the same `.then`); on parse failure
the `catch` at line 391 only logs, `knownStations` stays `undefined`,
and the poll loop is started anyway. -/
def startupLoadStations (g : GistFetch) : StartupOutcome :=
  match g with
  | GistFetch.fetchFail => StartupOutcome.notStarted
  | GistFetch.body parsed =>
    match parsed with
    | some m => StartupOutcome.loopStarted (some m)
    | none => StartupOutcome.loopStarted none

/-- The module-level state right after startup (src/index.js lines
363-374): both profiles set to the music client id, empty fingerprints,
not connected. -/
def initialState (version : String)
    (ks : Option (List (String × String))) : AppState :=
  { previousPlaying := ""
    previousStreaming := ""
    loggedIn := false
    requestedClientId := iTunesMusicClientId
    activatedClientId := iTunesMusicClientId
    currentStationName := ""
    currentStationId := ""
    knownStations := ks
    packageVersion := version }

/-- Iterate `checkCurrentApplicationState` over a list of ticks,
accumulating events (throws surface as unhandled rejections at the
interval boundary). -/
def runChecks (s : AppState) : List (Obs × TickEnv) → AppState × List Event
  | [] => (s, [])
  | t :: ts =>
    let o := checkCurrentApplicationState s t.1 t.2
    let r := runChecks o.state ts
    (r.1, (o.events ++ thrownToUnhandled o.thrown) ++ r.2)

/-- Iterate full poll ticks (`setActivity`) over a list of ticks. -/
def runLoop (s : AppState) : List (Obs × TickEnv) → AppState × List Event
  | [] => (s, [])
  | t :: ts =>
    let o := setActivityStep s t.1 t.2
    let r := runLoop o.state ts
    (r.1, (o.events ++ thrownToUnhandled o.thrown) ++ r.2)

/-- Is this event a presence send (of either mode)? -/
def isSend : Event → Bool
  | Event.sendActivity _ _ _ => true
  | _ => false

/-- Number of presence sends among a tick trace's events. -/
def sendCount (evs : List Event) : Nat :=
  (evs.filter isSend).length

/-- The large-image keys of the local-mode sends in a trace, in order. -/
def localSendIcons (evs : List Event) : List String :=
  evs.filterMap fun e =>
    match e with
    | Event.sendActivity SendMode.localMode p _ => some p.largeImageKey
    | _ => none

/-!  Concrete inputs used by counterexamples and witnesses. -/

/-- State right after a startup whose station-asset gist parsed to an
empty mapping. -/
def cexState0 : AppState := initialState "1.0.0" (some [])

/-- A tick observation of a station candidate: name present, artist and
album empty. -/
def cexObsStation : Obs :=
  { playerState := "playing", trackName := "RadioX", artistName := ""
    albumName := "", playerPosition := 0, timeOfTrack := "", now := 1000 }

/-- A tick observation of complete local-playback facts. -/
def cexObsLocal : Obs :=
  { playerState := "playing", trackName := "Song", artistName := "Artist"
    albumName := "Album", playerPosition := 2, timeOfTrack := "200", now := 5000 }

/-- The same observation while the player reports a stopped state. -/
def cexObsStopped : Obs := { cexObsLocal with playerState := "stopped" }

/-- A now-playing object carrying only a combined stream title. -/
def cexTrackData : TrackData :=
  { songName := none, artistName := none, albumName := none
    streamTitle := some "ArtistA - TrackB" }

/-- A now-playing object with both name fields present but no
`streamTitle` field. -/
def cexTrackDataNoTitle : TrackData :=
  { songName := some "SongX", artistName := some "ArtistX"
    albumName := some "AlbumX", streamTitle := none }

/-- The now-playing object of the spec scenario: empty `songName` and
`artistName`, combined stream title. -/
def cexTrackDataSplit : TrackData :=
  { songName := some "", artistName := some "", albumName := none
    streamTitle := some "Artist Name - Track Title" }

/-- A benign environment: sends and connects succeed, the station page
resolves to id 123, the now-playing endpoint returns `cexTrackData`. -/
def cexEnv : TickEnv :=
  { sendOk := true, connectOk := true
    page := StationPageResult.matched "123"
    nowPlaying := NowPlayingResponse.body cexTrackData }

/-- The benign environment except that the remote `setActivity` call is
rejected (and caught at src/index.js line 162). -/
def cexEnvSendFail : TickEnv := { cexEnv with sendOk := false }

/-- A four-tick trace from the post-startup state: connect and resolve
the station, switch profiles, reconnect and stream, then observe
complete local facts while `currentStationName` is still set. -/
def cexTrace : List (Obs × TickEnv) :=
  [(cexObsStation, cexEnv), (cexObsStation, cexEnv),
   (cexObsStation, cexEnv), (cexObsLocal, cexEnv)]

/-- A connected state whose streaming-lane fingerprint is non-empty when
the player stops. -/
def cexStopState : AppState :=
  { cexState0 with previousStreaming := stringifyFacts "T" "A" "B", loggedIn := true }

/-- A connected state in station-streaming mode (profiles both radio,
station resolved), as reached after tick 3 of `cexTrace`. -/
def cexStationState : AppState :=
  { cexState0 with loggedIn := true
                   requestedClientId := iTunesRadioClientId
                   activatedClientId := iTunesRadioClientId
                   currentStationName := "RadioX"
                   currentStationId := "123" }

/-- The post-startup state once connected with the music profile. -/
def cexConnectedState : AppState := { cexState0 with loggedIn := true }

/-- A connected state in which a profile switch is pending: the radio
profile is requested while the music profile is active. -/
def cexSwitchState : AppState :=
  { cexStationState with activatedClientId := iTunesMusicClientId
                         previousStreaming := stringifyFacts "x" "y" "z" }

/-- The payload `sendPlayingToDiscord` builds for `cexObsLocal` from a
state with no station name set. -/
def cexLocalPayload : PresencePayload :=
  { details := emojiMusic ++ " Song " ++ emojiClock ++ " 200"
    state := emojiPerson ++ " Artist"
    startTimestamp := 3000
    largeImageKey := "itunes"
    largeImageText := emojiDisc ++ " Album"
    smallImageKey := "github"
    smallImageText := "nimayneb/discord-itunes (1.0.0)" }

/-- The payload `sendListeningToDiscord` builds from `cexStationState`
for a station track with a known album. -/
def cexStationPayload : PresencePayload :=
  { details := emojiMusic ++ " TrackB"
    state := emojiPerson ++ " ArtistA"
    startTimestamp := 1000
    largeImageKey := "RadioX"
    largeImageText := emojiDisc ++ " AlbumB"
    smallImageKey := "github"
    smallImageText := "nimayneb/discord-itunes (1.0.0)" }

/-!  Supporting lemmas. -/

theorem data_append (s u : String) : (s ++ u).data = s.data ++ u.data := rfl

theorem stringifyFacts_ne_empty (t a b : String) : stringifyFacts t a b ≠ "" := by
  intro h
  have hd := congrArg String.data h
  simp only [stringifyFacts, data_append, List.append_eq_nil] at hd
  exact absurd hd.1.1.1.1.1.1 (by decide)

theorem jsOr_match (o : Option String) (fb : String) :
    jsOr o fb = (match o with
                 | some seg => if seg = "" then fb else seg
                 | none => fb) := by
  cases o <;> rfl

theorem fetchTrackDataHandler_event_kinds (s : AppState) (td : TrackData)
    (now : Int) (b : Bool) :
    ∀ e ∈ (fetchTrackDataHandler s td now b).events,
      (∃ m, e = Event.unhandled m)
      ∨ ∃ p ok, e = Event.sendActivity SendMode.stationMode p ok := by
  intro e
  unfold fetchTrackDataHandler
  cases td.streamTitle with
  | none => intro he; simp at he
  | some st =>
    dsimp only
    split
    · split
      · intro he
        simp at he
        exact Or.inl ⟨_, he⟩
      · intro he
        simp at he
        exact Or.inr ⟨_, _, he⟩
    · intro he; simp at he

theorem fetchTrackData_event_kinds (s : AppState) (np : NowPlayingResponse)
    (now : Int) (b : Bool) :
    ∀ e ∈ (fetchTrackData s np now b).events,
      (∃ m, e = Event.unhandled m)
      ∨ ∃ p ok, e = Event.sendActivity SendMode.stationMode p ok := by
  cases np with
  | fetchFail =>
    intro e he
    simp [fetchTrackData] at he
    exact Or.inl ⟨_, he⟩
  | body td => exact fetchTrackDataHandler_event_kinds s td now b

theorem thrownToUnhandled_event_kinds (th : Option String) :
    ∀ e ∈ thrownToUnhandled th, ∃ m, e = Event.unhandled m := by
  cases th with
  | none => intro e he; simp [thrownToUnhandled] at he
  | some m =>
    intro e he
    simp [thrownToUnhandled] at he
    exact ⟨m, he⟩

theorem fetchStation_event_kinds (s : AppState) (name : String)
    (page : StationPageResult) (np : NowPlayingResponse) (now : Int) (b : Bool) :
    ∀ e ∈ (fetchStation s name page np now b).events,
      (∃ m, e = Event.unhandled m)
      ∨ ∃ p ok, e = Event.sendActivity SendMode.stationMode p ok := by
  intro e
  unfold fetchStation
  split
  · split
    · intro he; simp at he
    · split
      · intro he; simp at he; exact Or.inl ⟨_, he⟩
      · intro he; simp at he; exact Or.inl ⟨_, he⟩
      · split
        · dsimp only
          split
          · intro he
            dsimp only at he
            rcases List.mem_append.mp he with h | h
            · exact fetchTrackData_event_kinds _ _ _ _ e h
            · exact Or.inl (thrownToUnhandled_event_kinds _ e h)
          · intro he; simp at he
        · intro he; simp at he
  · split
    · intro he
      dsimp only at he
      rcases List.mem_append.mp he with h | h
      · exact fetchTrackData_event_kinds _ _ _ _ e h
      · exact Or.inl (thrownToUnhandled_event_kinds _ e h)
    · intro he; simp at he

theorem fetchTrackDataHandler_prevPlaying (s : AppState) (td : TrackData)
    (now : Int) (b : Bool) :
    (fetchTrackDataHandler s td now b).state.previousPlaying
      = s.previousPlaying := by
  unfold fetchTrackDataHandler
  cases td.streamTitle with
  | none => rfl
  | some st =>
    dsimp only
    split
    · split <;> rfl
    · rfl

theorem fetchTrackData_prevPlaying (s : AppState) (np : NowPlayingResponse)
    (now : Int) (b : Bool) :
    (fetchTrackData s np now b).state.previousPlaying = s.previousPlaying := by
  cases np with
  | fetchFail => rfl
  | body td => exact fetchTrackDataHandler_prevPlaying s td now b

theorem fetchStation_prevPlaying (s : AppState) (name : String)
    (page : StationPageResult) (np : NowPlayingResponse) (now : Int) (b : Bool) :
    (fetchStation s name page np now b).state.previousPlaying
      = s.previousPlaying := by
  unfold fetchStation
  split
  · split
    · rfl
    · split
      · rfl
      · rfl
      · split
        · dsimp only
          split
          · dsimp only
            rw [fetchTrackData_prevPlaying]
          · rfl
        · rfl
  · split
    · dsimp only
      rw [fetchTrackData_prevPlaying]
    · rfl

theorem discordSend_ok_icon (s : AppState) (d st it : String) (ts : Int)
    (p : PresencePayload) (hstation : s.currentStationName = "")
    (h : discordSend s d st it ts = Except.ok p) :
    p.largeImageKey = "itunes" := by
  simp only [discordSend, hstation] at h
  simp at h
  rw [← h]

theorem sendPlaying_ok (s : AppState) (t a b tt : String) (start now : Int)
    (hgood : s.currentStationName = "" ∨ s.knownStations ≠ none) :
    ∃ p, sendPlayingToDiscord s t a b start tt now = Except.ok p := by
  unfold sendPlayingToDiscord discordSend
  dsimp only
  rcases hgood with h | h
  · rw [if_neg (fun hne => hne h)]
    exact ⟨_, rfl⟩
  · by_cases hc : s.currentStationName = ""
    · rw [if_neg (fun hne => hne hc)]
      exact ⟨_, rfl⟩
    · rw [if_pos hc]
      unfold getStationKeyName
      cases hk : s.knownStations with
      | none => exact absurd hk h
      | some m =>
        dsimp only
        split
        · rename_i e heq
          split at heq <;> simp at heq
        · rename_i logo heq
          exact ⟨_, rfl⟩

theorem check_noop (s : AppState) (obs : Obs) (env : TickEnv)
    (hprev : s.previousPlaying
      = stringifyFacts obs.trackName obs.artistName obs.albumName)
    (ha : obs.artistName ≠ "") :
    checkCurrentApplicationState s obs env
      = { state := { s with loggedIn := true }, events := [], thrown := none } := by
  unfold checkCurrentApplicationState
  dsimp only
  rw [if_neg (fun h => h.2.2.2 hprev.symm), if_neg (fun h => ha h.2.1)]

theorem check_branch1_prev (s : AppState) (obs : Obs) (env : TickEnv)
    (hn : obs.trackName ≠ "") (ha : obs.artistName ≠ "") (hb : obs.albumName ≠ "")
    (hch : stringifyFacts obs.trackName obs.artistName obs.albumName
      ≠ s.previousPlaying) :
    (checkCurrentApplicationState s obs env).state.previousPlaying
      = stringifyFacts obs.trackName obs.artistName obs.albumName := by
  unfold checkCurrentApplicationState
  dsimp only
  rw [if_pos ⟨hn, ha, hb, hch⟩]
  split <;> rfl

theorem check_branch1_out (s : AppState) (obs : Obs) (env : TickEnv)
    (hn : obs.trackName ≠ "") (ha : obs.artistName ≠ "") (hb : obs.albumName ≠ "")
    (hch : stringifyFacts obs.trackName obs.artistName obs.albumName
      ≠ s.previousPlaying) :
    (∃ e, sendPlayingToDiscord
          { s with requestedClientId := iTunesMusicClientId,
                   previousStreaming := "",
                   previousPlaying :=
                     stringifyFacts obs.trackName obs.artistName obs.albumName }
          obs.trackName obs.artistName obs.albumName obs.playerPosition
          obs.timeOfTrack obs.now = Except.error e
        ∧ checkCurrentApplicationState s obs env
          = { state := { s with requestedClientId := iTunesMusicClientId,
                                previousStreaming := "",
                                previousPlaying :=
                                  stringifyFacts obs.trackName obs.artistName
                                    obs.albumName }
              events := [Event.resetStreamingLane]
              thrown := some e })
    ∨ ∃ p, sendPlayingToDiscord
          { s with requestedClientId := iTunesMusicClientId,
                   previousStreaming := "",
                   previousPlaying :=
                     stringifyFacts obs.trackName obs.artistName obs.albumName }
          obs.trackName obs.artistName obs.albumName obs.playerPosition
          obs.timeOfTrack obs.now = Except.ok p
        ∧ checkCurrentApplicationState s obs env
          = { state := { s with requestedClientId := iTunesMusicClientId,
                                previousStreaming := "",
                                previousPlaying :=
                                  stringifyFacts obs.trackName obs.artistName
                                    obs.albumName,
                                loggedIn := true }
              events := [Event.resetStreamingLane,
                         Event.sendActivity SendMode.localMode p env.sendOk]
              thrown := none } := by
  unfold checkCurrentApplicationState
  dsimp only
  rw [if_pos ⟨hn, ha, hb, hch⟩]
  split
  · next e hp => exact Or.inl ⟨e, hp, rfl⟩
  · next p hp => exact Or.inr ⟨p, hp, rfl⟩

theorem check_branch2_events (s : AppState) (obs : Obs) (env : TickEnv)
    (hn : obs.trackName ≠ "") (ha : obs.artistName = "") (hb : obs.albumName = "") :
    (checkCurrentApplicationState s obs env).events
      = Event.resetPlayingLane
        :: (fetchStation { s with previousPlaying := "" } obs.trackName env.page
              env.nowPlaying obs.now env.sendOk).events
    ∧ (checkCurrentApplicationState s obs env).state.previousPlaying = "" := by
  unfold checkCurrentApplicationState
  dsimp only
  rw [if_neg (fun h => h.2.1 ha), if_pos ⟨hn, ha, hb⟩]
  constructor
  · split <;> rfl
  · split <;> (dsimp only; rw [fetchStation_prevPlaying])

theorem check_else (s : AppState) (obs : Obs) (env : TickEnv)
    (h1 : ¬(obs.trackName ≠ "" ∧ obs.artistName ≠ "" ∧ obs.albumName ≠ ""
      ∧ stringifyFacts obs.trackName obs.artistName obs.albumName
          ≠ s.previousPlaying))
    (h2 : ¬(obs.trackName ≠ "" ∧ obs.artistName = "" ∧ obs.albumName = "")) :
    checkCurrentApplicationState s obs env
      = { state := { s with loggedIn := true }, events := [], thrown := none } := by
  unfold checkCurrentApplicationState
  dsimp only
  rw [if_neg h1, if_neg h2]

/-!  Claim theorems. -/

/-- C5: on startup, a failed fetch of the station icon-key mapping does
not lead to the graceful degradation the claim describes: a rejected
gist fetch skips the whole bootstrap `.then`, so the poll loop is never
started; a parse failure does start the loop but leaves `knownStations`
undefined, and then every icon-key lookup throws a `TypeError` from the
`in` operator instead of returning the station name verbatim.  The
verbatim fallback works only when a mapping object is actually loaded. -/
theorem startup_station_mapping_failure_behavior :
    startupLoadStations GistFetch.fetchFail = StartupOutcome.notStarted
    ∧ startupLoadStations (GistFetch.body none) = StartupOutcome.loopStarted none
    ∧ getStationKeyName none "SomeStation"
        = Except.error "TypeError: cannot use in operator on undefined"
    ∧ getStationKeyName (some []) "SomeStation" = Except.ok "SomeStation" :=
  ⟨rfl, rfl, rfl, rfl⟩

/-- C6: when the scripting bridge reports an error to the `execString`
callback, `runAppleScript` calls `reject(error)`, so the returned
promise rejects with that error; it does not resolve to the empty
string.  The `try/catch` around the `Promise` constructor cannot
intercept this rejection, so the error is observable to every awaiting
caller. -/
theorem bridge_error_rejects_promise :
    runAppleScript (BridgeOutcome.err "ScriptError")
      = PromiseResult.rejected "ScriptError"
    ∧ runAppleScript (BridgeOutcome.err "ScriptError")
        ≠ PromiseResult.resolved "" :=
  ⟨rfl, by decide⟩

/-- C7: every payload produced on the local-playback path has
`startTimestamp = now - start * 1000` for the observed player position
`start` and tick time `now`, and every payload produced on the
station-streaming path has `startTimestamp = now` exactly. -/
theorem startTimestamp_formulas :
    (∀ (s : AppState) (t a b tt : String) (start now : Int) (p : PresencePayload),
        sendPlayingToDiscord s t a b start tt now = Except.ok p →
        p.startTimestamp = now - start * 1000)
    ∧ (∀ (s : AppState) (t a b : String) (now : Int) (p : PresencePayload),
        sendListeningToDiscord s t a b now = Except.ok p →
        p.startTimestamp = now) := by
  constructor
  · intro s t a b tt start now p h
    simp only [sendPlayingToDiscord, discordSend] at h
    split at h
    · exact absurd h (by simp)
    · injection h with h2
      subst h2
      rfl
  · intro s t a b now p h
    simp only [sendListeningToDiscord, discordSend] at h
    split at h
    · exact absurd h (by simp)
    · injection h with h2
      subst h2
      rfl

/-- C7 witness: concrete evaluations of both payload builders, with the
theorem supplying the timestamp equations. -/
theorem startTimestamp_formulas_witness :
    sendPlayingToDiscord cexState0 "Song" "Artist" "Album" 2 "200" 5000
      = Except.ok cexLocalPayload
    ∧ cexLocalPayload.startTimestamp = 5000 - 2 * 1000
    ∧ sendListeningToDiscord cexStationState "TrackB" "ArtistA" "AlbumB" 1000
        = Except.ok cexStationPayload
    ∧ cexStationPayload.startTimestamp = 1000 :=
  ⟨rfl,
   startTimestamp_formulas.1 cexState0 "Song" "Artist" "Album" "200" 2 5000
     cexLocalPayload rfl,
   rfl,
   startTimestamp_formulas.2 cexStationState "TrackB" "ArtistA" "AlbumB" 1000
     cexStationPayload rfl⟩

/-- C8: in the now-playing handler, an absent or empty `artistName`
(resp. `songName`) is replaced by the first (resp. second) segment of
`streamTitle` split on the separator, with `"N/A"` when that
segment is absent or empty, while a present non-empty field is used
unchanged. -/
theorem stream_title_split_defaults (td : TrackData) (st : String)
    (_hst : td.streamTitle = some st) :
    ((td.artistName = none ∨ td.artistName = some "") →
        deriveArtistName td (jsSplit2 st)
          = (match ((jsSplit " - " st).take 2).get? 0 with
             | some seg => if seg = "" then "N/A" else seg
             | none => "N/A"))
    ∧ (∀ v, v ≠ "" → td.artistName = some v →
        deriveArtistName td (jsSplit2 st) = v)
    ∧ ((td.songName = none ∨ td.songName = some "") →
        deriveTrackName td (jsSplit2 st)
          = (match ((jsSplit " - " st).take 2).get? 1 with
             | some seg => if seg = "" then "N/A" else seg
             | none => "N/A"))
    ∧ (∀ v, v ≠ "" → td.songName = some v →
        deriveTrackName td (jsSplit2 st) = v) := by
  refine ⟨?_, ?_, ?_, ?_⟩
  · intro habs
    rw [← jsOr_match]
    rcases habs with h | h <;> simp [deriveArtistName, jsOr, jsSplit2, h]
  · intro v hv h
    simp [deriveArtistName, jsOr, h, hv]
  · intro habs
    rw [← jsOr_match]
    rcases habs with h | h <;> simp [deriveTrackName, jsOr, jsSplit2, h]
  · intro v hv h
    simp [deriveTrackName, jsOr, h, hv]

/-- C8 witness: the spec scenario — stream title
`"Artist Name - Track Title"` with empty `artistName` and `songName`
splits into artist `"Artist Name"` and track `"Track Title"`. -/
theorem stream_title_split_defaults_witness :
    deriveArtistName cexTrackDataSplit (jsSplit2 "Artist Name - Track Title")
      = "Artist Name"
    ∧ deriveTrackName cexTrackDataSplit (jsSplit2 "Artist Name - Track Title")
      = "Track Title" := by
  have h := stream_title_split_defaults cexTrackDataSplit
    "Artist Name - Track Title" rfl
  exact ⟨(h.1 (Or.inr rfl)).trans (by decide),
         (h.2.2.1 (Or.inr rfl)).trans (by decide)⟩

/-- C1 counterexample: from the post-startup state, a tick observing
complete facts whose remote send FAILS still commits the observed
fingerprint (it was `""` before, equals the observed facts after), and a
second tick observing the same facts performs no send at all — the code
commits the fingerprint before the send and never rolls it back, so an
unsent observation does suppress the later identical send. -/
theorem sendFailure_still_commits_fingerprint :
    (checkCurrentApplicationState cexState0 cexObsLocal cexEnvSendFail).state.previousPlaying
      = stringifyFacts "Song" "Artist" "Album"
    ∧ cexState0.previousPlaying = ""
    ∧ (checkCurrentApplicationState cexState0 cexObsLocal cexEnvSendFail).events.filter isSend
      = [Event.sendActivity SendMode.localMode cexLocalPayload false]
    ∧ sendCount (checkCurrentApplicationState
        (checkCurrentApplicationState cexState0 cexObsLocal cexEnvSendFail).state
        cexObsLocal cexEnv).events = 0 := by
  refine ⟨by decide, rfl, by decide, by decide⟩

/-- C1 amended: on a tick that observes complete facts differing from
the playing-lane fingerprint, the fingerprint is committed to the
observed facts before the send and regardless of whether the send
succeeds (the resulting state does not depend on the send outcome), and
a subsequent tick observing the same facts performs no send. -/
theorem fingerprint_commit_independent_of_send (s : AppState) (obs : Obs)
    (env : TickEnv)
    (hn : obs.trackName ≠ "") (ha : obs.artistName ≠ "") (hb : obs.albumName ≠ "")
    (hch : stringifyFacts obs.trackName obs.artistName obs.albumName
      ≠ s.previousPlaying) :
    (checkCurrentApplicationState s obs env).state.previousPlaying
      = stringifyFacts obs.trackName obs.artistName obs.albumName
    ∧ (checkCurrentApplicationState s obs { env with sendOk := false }).state
      = (checkCurrentApplicationState s obs { env with sendOk := true }).state
    ∧ sendCount (checkCurrentApplicationState
        (checkCurrentApplicationState s obs env).state obs env).events = 0 := by
  refine ⟨check_branch1_prev s obs env hn ha hb hch, ?_, ?_⟩
  · unfold checkCurrentApplicationState
    dsimp only
    rw [if_pos ⟨hn, ha, hb, hch⟩, if_pos ⟨hn, ha, hb, hch⟩]
    split <;> rfl
  · rw [check_noop _ obs env
      (check_branch1_prev s obs env hn ha hb hch) ha]
    rfl

/-- C1 amended witness: concrete instantiation at the post-startup state
with a failing send. -/
theorem fingerprint_commit_independent_of_send_witness :
    (checkCurrentApplicationState cexState0 cexObsLocal cexEnvSendFail).state.previousPlaying
      = stringifyFacts cexObsLocal.trackName cexObsLocal.artistName cexObsLocal.albumName
    ∧ (checkCurrentApplicationState cexState0 cexObsLocal
        { cexEnvSendFail with sendOk := false }).state
      = (checkCurrentApplicationState cexState0 cexObsLocal
          { cexEnvSendFail with sendOk := true }).state
    ∧ sendCount (checkCurrentApplicationState
        (checkCurrentApplicationState cexState0 cexObsLocal cexEnvSendFail).state
        cexObsLocal cexEnvSendFail).events = 0 :=
  fingerprint_commit_independent_of_send cexState0 cexObsLocal cexEnvSendFail
    (by decide) (by decide) (by decide) (by decide)

/-- C3 counterexample: a stop tick from a connected state with a
non-empty streaming-lane fingerprint performs the
teardown-and-recreate (destroy and create events, connected flag and
playing-lane fingerprint cleared) but leaves the streaming-lane
fingerprint untouched, so not all change-detector fingerprints are
reset. -/
theorem teardown_keeps_streaming_fingerprint :
    Event.destroyClient ∈ (setActivityStep cexStopState cexObsStopped cexEnv).events
    ∧ Event.createClient ∈ (setActivityStep cexStopState cexObsStopped cexEnv).events
    ∧ (setActivityStep cexStopState cexObsStopped cexEnv).state.loggedIn = false
    ∧ (setActivityStep cexStopState cexObsStopped cexEnv).state.previousPlaying = ""
    ∧ (setActivityStep cexStopState cexObsStopped cexEnv).state.previousStreaming
      = cexStopState.previousStreaming
    ∧ cexStopState.previousStreaming ≠ "" := by
  refine ⟨by decide, by decide, by decide, by decide, by decide, by decide⟩

/-- C3 amended: both teardown-and-recreate sites — the stop-while-connected
tick and the profile-switch tick — destroy the session object, construct
a replacement, reset the connected flag and the local-playback lane
fingerprint; the station-streaming lane fingerprint is not reset by the
teardown (the profile switch additionally clears the station id and name,
but neither site touches `previousStreaming`). -/
theorem teardown_resets_connected_and_playing_lane (s : AppState) (obs : Obs)
    (env : TickEnv) :
    (obs.playerState ≠ "playing" → s.loggedIn = true →
      setActivityStep s obs env
        = { state := { s with loggedIn := false, previousPlaying := "" }
            events := [Event.destroyClient, Event.createClient,
                       Event.resetPlayingLane]
            thrown := none })
    ∧ (obs.playerState = "playing" → s.loggedIn = true →
       s.requestedClientId ≠ s.activatedClientId →
      setActivityStep s obs env
        = { state := { s with activatedClientId := s.requestedClientId,
                              currentStationId := "", currentStationName := "",
                              loggedIn := false, previousPlaying := "" }
            events := [Event.destroyClient, Event.createClient,
                       Event.resetPlayingLane]
            thrown := none }) := by
  constructor
  · intro hps hli
    unfold setActivityStep
    rw [if_neg hps, if_pos hli]
    rfl
  · intro hps hli hsw
    unfold setActivityStep
    rw [if_pos hps, if_neg (by simp [hli]), if_pos hsw]
    rfl

/-- C3 amended witness: the stop teardown at `cexStopState` and the
profile-switch teardown at `cexSwitchState`. -/
theorem teardown_resets_connected_and_playing_lane_witness :
    setActivityStep cexStopState cexObsStopped cexEnv
      = { state := { cexStopState with loggedIn := false, previousPlaying := "" }
          events := [Event.destroyClient, Event.createClient,
                     Event.resetPlayingLane]
          thrown := none }
    ∧ setActivityStep cexSwitchState cexObsStation cexEnv
      = { state := { cexSwitchState with
                       activatedClientId := cexSwitchState.requestedClientId,
                       currentStationId := "", currentStationName := "",
                       loggedIn := false, previousPlaying := "" }
          events := [Event.destroyClient, Event.createClient,
                     Event.resetPlayingLane]
          thrown := none } :=
  ⟨(teardown_resets_connected_and_playing_lane cexStopState cexObsStopped
      cexEnv).1 (by decide) rfl,
   (teardown_resets_connected_and_playing_lane cexSwitchState cexObsStation
      cexEnv).2 rfl rfl (by decide)⟩

/-- Ticks that observe facts identical to the committed playing-lane
fingerprint leave the state unchanged (but for the connected flag) and
perform no events at all. -/
theorem runChecks_no_new_send (t a b : String) (ha : a ≠ "")
    (ticks : List (Obs × TickEnv)) :
    ∀ s : AppState,
      s.previousPlaying = stringifyFacts t a b →
      (∀ p ∈ ticks, p.1.trackName = t ∧ p.1.artistName = a ∧ p.1.albumName = b) →
      (runChecks s ticks).2 = [] := by
  induction ticks with
  | nil => intro s _ _; rfl
  | cons hd tl ih =>
    intro s hprev hobs
    obtain ⟨hht, hha, hhb⟩ := hobs hd (List.mem_cons_self hd tl)
    have hnoop := check_noop s hd.1 hd.2
      (by rw [hht, hha, hhb]; exact hprev) (by rw [hha]; exact ha)
    simp only [runChecks]
    rw [hnoop]
    have hrest := ih { s with loggedIn := true } hprev
      (fun p hp => hobs p (List.mem_cons_of_mem hd hp))
    rw [hrest]
    rfl

/-- C2: over any run of consecutive fact-observing ticks (calls of
`checkCurrentApplicationState`) that all observe the same complete
facts, starting when those facts differ from the committed playing-lane
fingerprint, exactly one send occurs; every further tick of the run
performs no send, so another send can only happen once a field of the
facts changes the fingerprint comparison.  The `hgood` hypothesis is
the reachability invariant that a set station name implies a loaded
station mapping (`fetchStation` cannot set `currentStationName` while
`knownStations` is undefined, because building the station URL throws
first). -/
theorem identical_facts_send_once (s0 : AppState) (t a b : String)
    (ticks : List (Obs × TickEnv))
    (hgood : s0.currentStationName = "" ∨ s0.knownStations ≠ none)
    (ht : t ≠ "") (ha : a ≠ "") (hb : b ≠ "")
    (hch : stringifyFacts t a b ≠ s0.previousPlaying)
    (hne : ticks ≠ [])
    (hobs : ∀ p ∈ ticks, p.1.trackName = t ∧ p.1.artistName = a
      ∧ p.1.albumName = b) :
    sendCount (runChecks s0 ticks).2 = 1 := by
  cases ticks with
  | nil => exact absurd rfl hne
  | cons hd tl =>
    obtain ⟨hht, hha, hhb⟩ := hobs hd (List.mem_cons_self hd tl)
    have hn1 : hd.1.trackName ≠ "" := by rw [hht]; exact ht
    have ha1 : hd.1.artistName ≠ "" := by rw [hha]; exact ha
    have hb1 : hd.1.albumName ≠ "" := by rw [hhb]; exact hb
    have hch1 : stringifyFacts hd.1.trackName hd.1.artistName hd.1.albumName
        ≠ s0.previousPlaying := by rw [hht, hha, hhb]; exact hch
    rcases check_branch1_out s0 hd.1 hd.2 hn1 ha1 hb1 hch1 with
      ⟨e, he, _⟩ | ⟨p, _, hck⟩
    · obtain ⟨q, hq⟩ := sendPlaying_ok
        { s0 with requestedClientId := iTunesMusicClientId,
                  previousStreaming := "",
                  previousPlaying := stringifyFacts hd.1.trackName
                    hd.1.artistName hd.1.albumName }
        hd.1.trackName hd.1.artistName hd.1.albumName hd.1.timeOfTrack
        hd.1.playerPosition hd.1.now hgood
      rw [hq] at he
      exact absurd he (by simp)
    · simp only [runChecks]
      rw [hck]
      have hrest := runChecks_no_new_send t a b ha tl
        { s0 with requestedClientId := iTunesMusicClientId,
                  previousStreaming := "",
                  previousPlaying := stringifyFacts hd.1.trackName
                    hd.1.artistName hd.1.albumName,
                  loggedIn := true }
        (by rw [hht, hha, hhb])
        (fun p hp => hobs p (List.mem_cons_of_mem hd hp))
      rw [hrest]
      simp [sendCount, thrownToUnhandled, isSend]

/-- C2 witness: two ticks observing the same complete facts from the
post-startup state (the second with a failing remote send) produce
exactly one send. -/
theorem identical_facts_send_once_witness :
    sendCount (runChecks cexState0
      [(cexObsLocal, cexEnv), (cexObsLocal, cexEnvSendFail)]).2 = 1 :=
  identical_facts_send_once cexState0 "Song" "Artist" "Album"
    [(cexObsLocal, cexEnv), (cexObsLocal, cexEnvSendFail)]
    (Or.inl rfl) (by decide) (by decide) (by decide) (by decide)
    (by decide) (by decide)

/-- C4: a station-candidate tick resets exactly the playing-lane
fingerprint (never the streaming lane), the local-complete tick that
follows it resets exactly the streaming-lane fingerprint (never the
playing lane), and no single tick ever resets both lanes. -/
theorem lane_switch_resets_exactly_other_lane (s : AppState) (o1 o2 : Obs)
    (e1 e2 : TickEnv)
    (h1n : o1.trackName ≠ "") (h1a : o1.artistName = "") (h1b : o1.albumName = "")
    (h2n : o2.trackName ≠ "") (h2a : o2.artistName ≠ "") (h2b : o2.albumName ≠ "") :
    (Event.resetPlayingLane ∈ (checkCurrentApplicationState s o1 e1).events
      ∧ Event.resetStreamingLane ∉ (checkCurrentApplicationState s o1 e1).events)
    ∧ (Event.resetStreamingLane
        ∈ (checkCurrentApplicationState
            (checkCurrentApplicationState s o1 e1).state o2 e2).events
      ∧ Event.resetPlayingLane
        ∉ (checkCurrentApplicationState
            (checkCurrentApplicationState s o1 e1).state o2 e2).events)
    ∧ ∀ (s2 : AppState) (o : Obs) (e : TickEnv),
        ¬(Event.resetPlayingLane ∈ (checkCurrentApplicationState s2 o e).events
          ∧ Event.resetStreamingLane
            ∈ (checkCurrentApplicationState s2 o e).events) := by
  obtain ⟨hev1, hp1⟩ := check_branch2_events s o1 e1 h1n h1a h1b
  refine ⟨⟨?_, ?_⟩, ?_, ?_⟩
  · rw [hev1]; exact List.mem_cons_self _ _
  · rw [hev1]
    intro hm
    rcases List.mem_cons.mp hm with h | h
    · exact Event.noConfusion h
    · rcases fetchStation_event_kinds _ _ _ _ _ _ _ h with ⟨m, hm2⟩ | ⟨p, ok, hm2⟩
        <;> exact Event.noConfusion hm2
  · have h2ch : stringifyFacts o2.trackName o2.artistName o2.albumName
        ≠ (checkCurrentApplicationState s o1 e1).state.previousPlaying := by
      rw [hp1]; exact stringifyFacts_ne_empty _ _ _
    rcases check_branch1_out _ o2 e2 h2n h2a h2b h2ch with
      ⟨e, _, hck⟩ | ⟨p, _, hck⟩ <;> rw [hck] <;>
      exact ⟨by simp, fun hm => by simp at hm⟩
  · intro s2 o e
    by_cases hc1 : (o.trackName ≠ "" ∧ o.artistName ≠ "" ∧ o.albumName ≠ ""
        ∧ stringifyFacts o.trackName o.artistName o.albumName
            ≠ s2.previousPlaying)
    · rcases check_branch1_out s2 o e hc1.1 hc1.2.1 hc1.2.2.1 hc1.2.2.2 with
        ⟨ex, _, hck⟩ | ⟨p, _, hck⟩ <;> rw [hck] <;>
        exact fun hm => by have := hm.1; simp at this
    · by_cases hc2 : (o.trackName ≠ "" ∧ o.artistName = "" ∧ o.albumName = "")
      · obtain ⟨hev2, -⟩ := check_branch2_events s2 o e hc2.1 hc2.2.1 hc2.2.2
        rw [hev2]
        intro hm
        rcases List.mem_cons.mp hm.2 with h | h
        · exact Event.noConfusion h
        · rcases fetchStation_event_kinds _ _ _ _ _ _ _ h with
            ⟨m, hm2⟩ | ⟨p, ok, hm2⟩ <;> exact Event.noConfusion hm2
      · rw [check_else s2 o e hc1 hc2]
        exact fun hm => by have := hm.1; simp at this

/-- C4 witness: the station-candidate tick and the following
local-complete tick from the post-startup state. -/
theorem lane_switch_resets_exactly_other_lane_witness :
    Event.resetPlayingLane
      ∈ (checkCurrentApplicationState cexState0 cexObsStation cexEnv).events
    ∧ Event.resetStreamingLane
      ∈ (checkCurrentApplicationState
          (checkCurrentApplicationState cexState0 cexObsStation cexEnv).state
          cexObsLocal cexEnv).events :=
  have h := lane_switch_resets_exactly_other_lane cexState0 cexObsStation
    cexObsLocal cexEnv cexEnv (by decide) rfl rfl (by decide) (by decide)
    (by decide)
  ⟨h.1.1, h.2.1.1⟩

/-- C9 counterexample: a reachable four-tick trace from the post-startup
state — resolve a station, switch to the radio profile, reconnect and
stream, then observe complete local facts — ends in a local-playback
send whose large icon key is the leftover station's key, not the static
`'itunes'` default (the station name is cleared only by the next tick's
profile switch). -/
theorem local_send_uses_leftover_station_icon :
    localSendIcons (runLoop cexState0 cexTrace).2 = ["RadioX"]
    ∧ "RadioX" ≠ "itunes" :=
  ⟨by decide, by decide⟩

/-- In the fact-observing tick itself, every local-mode send carries the
static icon key as long as no station name is set. -/
theorem check_local_send_icon (s : AppState) (obs : Obs) (env : TickEnv)
    (p : PresencePayload) (ok : Bool)
    (hstation : s.currentStationName = "")
    (hmem : Event.sendActivity SendMode.localMode p ok
      ∈ (checkCurrentApplicationState s obs env).events) :
    p.largeImageKey = "itunes" := by
  by_cases hc1 : (obs.trackName ≠ "" ∧ obs.artistName ≠ "" ∧ obs.albumName ≠ ""
      ∧ stringifyFacts obs.trackName obs.artistName obs.albumName
          ≠ s.previousPlaying)
  · rcases check_branch1_out s obs env hc1.1 hc1.2.1 hc1.2.2.1 hc1.2.2.2 with
      ⟨e, _, hck⟩ | ⟨q, hq, hck⟩
    · rw [hck] at hmem
      simp at hmem
    · rw [hck] at hmem
      rcases List.mem_cons.mp hmem with h | h
      · exact Event.noConfusion h
      · rcases List.mem_cons.mp h with h2 | h2
        · injection h2 with hm1 hm2 hm3
          rw [hm2]
          exact discordSend_ok_icon _ _ _ _ _ q hstation hq
        · simp at h2
  · by_cases hc2 : (obs.trackName ≠ "" ∧ obs.artistName = "" ∧ obs.albumName = "")
    · obtain ⟨hev, -⟩ := check_branch2_events s obs env hc2.1 hc2.2.1 hc2.2.2
      rw [hev] at hmem
      rcases List.mem_cons.mp hmem with h | h
      · exact Event.noConfusion h
      · rcases fetchStation_event_kinds _ _ _ _ _ _ _ h with
          ⟨m, hm2⟩ | ⟨q, ok2, hm2⟩
        · exact Event.noConfusion hm2
        · injection hm2 with hmode _
          exact SendMode.noConfusion hmode
    · rw [check_else s obs env hc1 hc2] at hmem
      simp at hmem

/-- C9 amended: every local-playback payload sent by a poll tick from a
state with no remaining station name uses the static `'itunes'` large
icon key; when a station name is still set from earlier station
streaming, the first local send after the content switch uses that
station's icon key instead (see the counterexample trace). -/
theorem local_send_icon_itunes_when_no_station (s : AppState) (obs : Obs)
    (env : TickEnv) (p : PresencePayload) (ok : Bool)
    (hstation : s.currentStationName = "")
    (hmem : Event.sendActivity SendMode.localMode p ok
      ∈ (setActivityStep s obs env).events) :
    p.largeImageKey = "itunes" := by
  unfold setActivityStep at hmem
  split at hmem
  · split at hmem
    · split at hmem
      · dsimp only at hmem
        rcases List.mem_cons.mp hmem with h | h
        · exact Event.noConfusion h
        · rcases List.mem_append.mp h with h2 | h2
          · exact check_local_send_icon s obs env p ok hstation h2
          · obtain ⟨m, hm2⟩ := thrownToUnhandled_event_kinds _ _ h2
            exact Event.noConfusion hm2
      · simp at hmem
    · split at hmem
      · simp [closeConnection] at hmem
      · exact check_local_send_icon s obs env p ok hstation hmem
  · split at hmem
    · simp [closeConnection] at hmem
    · simp at hmem

/-- C9 amended witness: a connected music-profile tick with complete
facts sends the local payload with the `'itunes'` icon. -/
theorem local_send_icon_itunes_when_no_station_witness :
    Event.sendActivity SendMode.localMode cexLocalPayload true
      ∈ (setActivityStep cexConnectedState cexObsLocal cexEnv).events
    ∧ cexLocalPayload.largeImageKey = "itunes" :=
  ⟨by decide,
   local_send_icon_itunes_when_no_station cexConnectedState cexObsLocal cexEnv
     cexLocalPayload true rfl (by decide)⟩

/-- C10: a now-playing response object without a `streamTitle` field
makes the refresh throw a `TypeError` at the unconditional
`streamTitle.split` before anything is compared or sent — for any values
of the other fields, including both name fields present — leaving the
station-lane fingerprint (the whole state) unchanged and performing no
events. -/
theorem missing_stream_title_throws_before_compare (s : AppState)
    (td : TrackData) (now : Int) (sendOk : Bool)
    (h : td.streamTitle = none) :
    fetchTrackDataHandler s td now sendOk
      = { state := s, events := []
          thrown := some "TypeError: cannot read split of undefined" } := by
  unfold fetchTrackDataHandler
  rw [h]

/-- C10 witness: the refresh fails this way even when `songName` and
`artistName` are both present. -/
theorem missing_stream_title_throws_before_compare_witness :
    fetchTrackDataHandler cexStationState cexTrackDataNoTitle 1000 true
      = { state := cexStationState, events := []
          thrown := some "TypeError: cannot read split of undefined" }
    ∧ cexTrackDataNoTitle.songName = some "SongX"
    ∧ cexTrackDataNoTitle.artistName = some "ArtistX" :=
  ⟨missing_stream_title_throws_before_compare cexStationState
     cexTrackDataNoTitle 1000 true rfl, rfl, rfl⟩

end DiscordItunes
